import Mathlib

/-!
# Authorization constraints (polkit/polkit-authorization-constraint.c)

A shallow embedding of the constraint module: the constraint record, the four
static singletons, the session / caller checks, derivation of a constraint from
a caller, and the text form (`to_string` / `from_string`).

Conventions of the embedding

* A C pointer that the code tests against `NULL` is an `Option`; `none` is `NULL`.
* `polkit_bool_t` results are `Bool` (`TRUE` is `true`, `FALSE` is `false`).
* A C string is the `String` of its bytes before the terminating NUL; a
  character buffer is a `List Char` of memory cells starting at the pointer.
* A query with an out-parameter, `q (obj, &out)`, is an `Option`: `none` when the
  call returns `FALSE`, `some v` when it returns `TRUE` having stored `v`.
-/

namespace Polkit

/-! ## Data model -/

/-- Modelled from the spec: the enum `PolKitAuthorizationConstraintFlags` is declared in
`polkit-authorization-constraint.h`, which is not among the sources; the flag word is an
unsigned machine word, and `REQUIRE_LOCAL` is the first of the two named bits. -/
def POLKIT_AUTHORIZATION_CONSTRAINT_REQUIRE_LOCAL : Nat := 1

/-- Modelled from the spec: `REQUIRE_ACTIVE` is the second of the two named bits of
`PolKitAuthorizationConstraintFlags` (header not among the sources). -/
def POLKIT_AUTHORIZATION_CONSTRAINT_REQUIRE_ACTIVE : Nat := 2

/-- The record `struct _PolKitAuthorizationConstraint`. -/
structure PolKitAuthorizationConstraint where
  refcount : Int
  flags : Nat
  deriving DecidableEq, Repr

/-- A valid session, seen through the two ConsoleKit queries the module consumes:
each field is the answer of the query on this session (`none`: the query returns
`FALSE`, the property is not known). -/
structure PolKitSession where
  ck_is_local : Option Bool
  ck_is_active : Option Bool
  deriving DecidableEq, Repr

/-- A valid caller, seen through the session query. `ck_session = none`: the query
returns `FALSE`; `some none`: it returns `TRUE` and stores a `NULL` session;
`some (some s)`: it returns `TRUE` and stores the session `s`. -/
structure PolKitCaller where
  ck_session : Option (Option PolKitSession)
  deriving DecidableEq, Repr

/-- Modelled from the spec: `polkit_session_get_ck_is_local` (polkit-session.c, not among
the sources) is the query `sessionIsLocal(session) -> Option<bool>`; on a `NULL` handle it
returns `FALSE`, the guard idiom of every entry point of the library. -/
def polkit_session_get_ck_is_local (session : Option PolKitSession) : Option Bool :=
  match session with
  | none => none
  | some s => s.ck_is_local

/-- Modelled from the spec: `polkit_session_get_ck_is_active` (polkit-session.c, not among
the sources) is the query `sessionIsActive(session) -> Option<bool>`; on a `NULL` handle it
returns `FALSE`. -/
def polkit_session_get_ck_is_active (session : Option PolKitSession) : Option Bool :=
  match session with
  | none => none
  | some s => s.ck_is_active

/-- Modelled from the spec: `polkit_caller_get_ck_session` (polkit-caller.c, not among the
sources) is the query `callerSession(caller)`; the result is `none` when the call returns
`FALSE` (always so on a `NULL` caller), and `some h` when it returns `TRUE` having stored the
session handle `h`, which may itself be `NULL`. -/
def polkit_caller_get_ck_session (caller : Option PolKitCaller) : Option (Option PolKitSession) :=
  match caller with
  | none => none
  | some c => c.ck_session

/-! ## The static singletons and the constructor -/

def _null_constraint : PolKitAuthorizationConstraint := ⟨-1, 0⟩

def _local_constraint : PolKitAuthorizationConstraint :=
  ⟨-1, POLKIT_AUTHORIZATION_CONSTRAINT_REQUIRE_LOCAL⟩

def _active_constraint : PolKitAuthorizationConstraint :=
  ⟨-1, POLKIT_AUTHORIZATION_CONSTRAINT_REQUIRE_ACTIVE⟩

def _local_active_constraint : PolKitAuthorizationConstraint :=
  ⟨-1, POLKIT_AUTHORIZATION_CONSTRAINT_REQUIRE_LOCAL |||
       POLKIT_AUTHORIZATION_CONSTRAINT_REQUIRE_ACTIVE⟩

/-- The constructor `_polkit_authorization_constraint_new`: `g_new0` zeroes the record,
then the reference count is set to 0; the argument is not looked at. -/
def _polkit_authorization_constraint_new (_entry_in_auth_file : Option String) :
    PolKitAuthorizationConstraint :=
  ⟨0, 0⟩

def polkit_authorization_constraint_get_null : PolKitAuthorizationConstraint :=
  _null_constraint

def polkit_authorization_constraint_get_require_local : PolKitAuthorizationConstraint :=
  _local_constraint

def polkit_authorization_constraint_get_require_active : PolKitAuthorizationConstraint :=
  _active_constraint

def polkit_authorization_constraint_get_require_local_active : PolKitAuthorizationConstraint :=
  _local_active_constraint

/-! ## Checking a constraint -/

/-- The function `polkit_authorization_constraint_check_session`. -/
def polkit_authorization_constraint_check_session
    (authc : Option PolKitAuthorizationConstraint) (session : Option PolKitSession) : Bool :=
  match authc with
  | none => false
  | some a =>
    match session with
    | none => false
    | some s =>
      let is_local : Bool :=
        match polkit_session_get_ck_is_local (some s) with
        | none => false
        | some v => v
      let is_active : Bool :=
        match polkit_session_get_ck_is_active (some s) with
        | none => false
        | some v => v
      if a.flags &&& POLKIT_AUTHORIZATION_CONSTRAINT_REQUIRE_LOCAL ≠ 0 ∧ is_local = false then
        false
      else if a.flags &&& POLKIT_AUTHORIZATION_CONSTRAINT_REQUIRE_ACTIVE ≠ 0 ∧ is_active = false then
        false
      else
        true

/-- The function `polkit_authorization_constraint_check_caller`. -/
def polkit_authorization_constraint_check_caller
    (authc : Option PolKitAuthorizationConstraint) (caller : Option PolKitCaller) : Bool :=
  match authc with
  | none => false
  | some a =>
    match caller with
    | none => false
    | some c =>
      match polkit_caller_get_ck_session (some c) with
      | some (some s) => polkit_authorization_constraint_check_session (some a) (some s)
      | _ => if a.flags = 0 then true else false

/-- The function `polkit_authorization_constraint_get_flags`. -/
def polkit_authorization_constraint_get_flags
    (authc : Option PolKitAuthorizationConstraint) : Nat :=
  match authc with
  | none => 0
  | some a => a.flags

/-! ## Deriving a constraint from a caller -/

/-- The function `polkit_authorization_constraint_get_from_caller`. Only the return value
of the session query is tested; the stored handle is passed on to the two session queries
as it is. -/
def polkit_authorization_constraint_get_from_caller
    (caller : Option PolKitCaller) : PolKitAuthorizationConstraint :=
  match polkit_caller_get_ck_session caller with
  | none => polkit_authorization_constraint_get_null
  | some session =>
    let is_local : Bool :=
      match polkit_session_get_ck_is_local session with
      | none => true
      | some v => v
    let is_active : Bool :=
      match polkit_session_get_ck_is_active session with
      | none => true
      | some v => v
    if is_local then
      if is_active then polkit_authorization_constraint_get_require_local_active
      else polkit_authorization_constraint_get_require_local
    else
      if is_active then polkit_authorization_constraint_get_require_active
      else polkit_authorization_constraint_get_null

/-! ## Text form -/

/-- The C library call `snprintf (s, n, fmt)` for a format without conversions: when `n` is
zero nothing is stored; otherwise the first `n - 1` characters of the text and a NUL are
stored at the start of the buffer. The result is the length of the whole text. -/
def snprintf (out_buf : List Char) (buf_size : Nat) (text : String) : List Char × Nat :=
  if buf_size = 0 then
    (out_buf, text.length)
  else
    let stored := text.data.take (buf_size - 1) ++ [Char.ofNat 0]
    (stored ++ out_buf.drop stored.length, text.length)

/-- The C string held in a buffer: the characters before the first NUL. -/
def c_str (buf : List Char) : List Char :=
  buf.takeWhile (fun ch => ch != Char.ofNat 0)

/-- The function `polkit_authorization_constraint_to_string`: the buffer after the call and
the returned count. -/
def polkit_authorization_constraint_to_string
    (authc : Option PolKitAuthorizationConstraint) (out_buf : List Char) (buf_size : Nat) :
    List Char × Nat :=
  match authc with
  | none => (out_buf, buf_size)
  | some a =>
    if a.flags = 0 then
      snprintf out_buf buf_size "none"
    else if a.flags = POLKIT_AUTHORIZATION_CONSTRAINT_REQUIRE_LOCAL then
      snprintf out_buf buf_size "local"
    else if a.flags = POLKIT_AUTHORIZATION_CONSTRAINT_REQUIRE_ACTIVE then
      snprintf out_buf buf_size "active"
    else if a.flags = POLKIT_AUTHORIZATION_CONSTRAINT_REQUIRE_LOCAL |||
        POLKIT_AUTHORIZATION_CONSTRAINT_REQUIRE_ACTIVE then
      snprintf out_buf buf_size "local+active"
    else
      (out_buf, buf_size)

/-- The function `polkit_authorization_constraint_from_string`; `strcmp (a, b) == 0` is equality
of the two C strings. -/
def polkit_authorization_constraint_from_string
    (str : Option String) : Option PolKitAuthorizationConstraint :=
  match str with
  | none => none
  | some s =>
    if s = "none" then some polkit_authorization_constraint_get_null
    else if s = "local" then some polkit_authorization_constraint_get_require_local
    else if s = "active" then some polkit_authorization_constraint_get_require_active
    else if s = "local+active" then
      some polkit_authorization_constraint_get_require_local_active
    else none

/-- The function `polkit_authorization_constraint_equal`. -/
def polkit_authorization_constraint_equal
    (a b : Option PolKitAuthorizationConstraint) : Bool :=
  match a with
  | none => false
  | some x =>
    match b with
    | none => false
    | some y => decide (x.flags = y.flags)

/-! ## Reference counting -/

/-- Arithmetic on the C type `int` (32 bits, two-complement wrap-around). -/
def int_wrap (i : Int) : Int :=
  (i + 2147483648) % 4294967296 - 2147483648

/-- The function `polkit_authorization_constraint_ref`. The pointer returned is the argument
pointer on every path; the result here is the object behind it after the call (`none` for a
`NULL` argument). -/
def polkit_authorization_constraint_ref
    (authc : Option PolKitAuthorizationConstraint) : Option PolKitAuthorizationConstraint :=
  match authc with
  | none => none
  | some a =>
    if a.refcount = -1 then some a
    else some ⟨int_wrap (a.refcount + 1), a.flags⟩

/-- The function `polkit_authorization_constraint_unref`. The result is the object behind the
argument pointer after the call; `none` when the storage was handed to `g_free` (or the
argument was `NULL`, in which case nothing happens). -/
def polkit_authorization_constraint_unref
    (authc : Option PolKitAuthorizationConstraint) : Option PolKitAuthorizationConstraint :=
  match authc with
  | none => none
  | some a =>
    if a.refcount = -1 then some a
    else
      let a1 : PolKitAuthorizationConstraint := ⟨int_wrap (a.refcount - 1), a.flags⟩
      if a1.refcount > 0 then some a1 else none

/-- One call made by a client on a constraint pointer. -/
inductive RefCall where
  | ref
  | unref
  deriving DecidableEq, Repr

/-- The object behind the pointer after one call. -/
def RefCall.apply (call : RefCall) (obj : Option PolKitAuthorizationConstraint) :
    Option PolKitAuthorizationConstraint :=
  match call with
  | RefCall.ref => polkit_authorization_constraint_ref obj
  | RefCall.unref => polkit_authorization_constraint_unref obj

/-- The object behind the pointer after a sequence of calls, first call first. -/
def run_calls (calls : List RefCall) (obj : Option PolKitAuthorizationConstraint) :
    Option PolKitAuthorizationConstraint :=
  match calls with
  | [] => obj
  | call :: rest => run_calls rest (call.apply obj)

/-! ## Vocabulary of the statements -/

/-- The four canonical constraints, as the four getters return them. -/
def canonical_constraints : List PolKitAuthorizationConstraint :=
  [polkit_authorization_constraint_get_null,
   polkit_authorization_constraint_get_require_local,
   polkit_authorization_constraint_get_require_active,
   polkit_authorization_constraint_get_require_local_active]

/-- The flag word is one of the four canonical values. -/
def canonical_flags (flags : Nat) : Prop :=
  flags = 0 ∨ flags = POLKIT_AUTHORIZATION_CONSTRAINT_REQUIRE_LOCAL ∨
  flags = POLKIT_AUTHORIZATION_CONSTRAINT_REQUIRE_ACTIVE ∨
  flags = POLKIT_AUTHORIZATION_CONSTRAINT_REQUIRE_LOCAL |||
    POLKIT_AUTHORIZATION_CONSTRAINT_REQUIRE_ACTIVE

instance (flags : Nat) : Decidable (canonical_flags flags) := by
  unfold canonical_flags
  infer_instance

/-- The constraint has canonical flags and `polkit_authorization_constraint_equal` relates it
to exactly one of the four canonical constraints. -/
def in_one_canonical_class (c : PolKitAuthorizationConstraint) : Prop :=
  canonical_flags c.flags ∧
  ∃! k, k ∈ canonical_constraints ∧
    polkit_authorization_constraint_equal (some c) (some k) = true

/-- Every flag bit of `a` is a flag bit of `b`. -/
def flags_subset (a b : Nat) : Prop :=
  a &&& b = a

instance (a b : Nat) : Decidable (flags_subset a b) := by
  unfold flags_subset
  infer_instance

/-- The flags are canonical and the token with its terminating NUL fits in `buf_size`
bytes. -/
def token_fits (flags buf_size : Nat) : Prop :=
  (flags = 0 ∧ "none".length + 1 ≤ buf_size) ∨
  (flags = POLKIT_AUTHORIZATION_CONSTRAINT_REQUIRE_LOCAL ∧ "local".length + 1 ≤ buf_size) ∨
  (flags = POLKIT_AUTHORIZATION_CONSTRAINT_REQUIRE_ACTIVE ∧ "active".length + 1 ≤ buf_size) ∨
  (flags = POLKIT_AUTHORIZATION_CONSTRAINT_REQUIRE_LOCAL |||
      POLKIT_AUTHORIZATION_CONSTRAINT_REQUIRE_ACTIVE ∧
    "local+active".length + 1 ≤ buf_size)

/-- The flags are canonical and the token with its terminating NUL does not fit in
`buf_size` bytes: the output is truncated. -/
def output_truncated (flags buf_size : Nat) : Prop :=
  (flags = 0 ∧ buf_size < "none".length + 1) ∨
  (flags = POLKIT_AUTHORIZATION_CONSTRAINT_REQUIRE_LOCAL ∧ buf_size < "local".length + 1) ∨
  (flags = POLKIT_AUTHORIZATION_CONSTRAINT_REQUIRE_ACTIVE ∧ buf_size < "active".length + 1) ∨
  (flags = POLKIT_AUTHORIZATION_CONSTRAINT_REQUIRE_LOCAL |||
      POLKIT_AUTHORIZATION_CONSTRAINT_REQUIRE_ACTIVE ∧
    buf_size < "local+active".length + 1)

/-! ## Checking: session and caller -/

/-- C1: for a constraint `c` and a valid session `s`, the session check is `TRUE` exactly when
each flag set in `c.flags` has its query succeeding with answer true (a failed query counts
as false); the null constraint is satisfied by every session, and local+active only by a
session on which both properties are known and true. -/
theorem check_session_iff (c : PolKitAuthorizationConstraint) (s : PolKitSession) :
    (polkit_authorization_constraint_check_session (some c) (some s) = true ↔
      ((c.flags &&& POLKIT_AUTHORIZATION_CONSTRAINT_REQUIRE_LOCAL = 0 ∨
          polkit_session_get_ck_is_local (some s) = some true) ∧
       (c.flags &&& POLKIT_AUTHORIZATION_CONSTRAINT_REQUIRE_ACTIVE = 0 ∨
          polkit_session_get_ck_is_active (some s) = some true))) ∧
    polkit_authorization_constraint_check_session
      (some polkit_authorization_constraint_get_null) (some s) = true ∧
    (polkit_authorization_constraint_check_session
      (some polkit_authorization_constraint_get_require_local_active) (some s) = true ↔
      (polkit_session_get_ck_is_local (some s) = some true ∧
       polkit_session_get_ck_is_active (some s) = some true)) := by
  obtain ⟨l, a⟩ := s
  refine ⟨?_, ?_, ?_⟩
  · simp only [polkit_authorization_constraint_check_session, polkit_session_get_ck_is_local,
      polkit_session_get_ck_is_active]
    rcases l with _ | _ | _ <;> rcases a with _ | _ | _ <;>
      by_cases h1 : c.flags &&& POLKIT_AUTHORIZATION_CONSTRAINT_REQUIRE_LOCAL = 0 <;>
      by_cases h2 : c.flags &&& POLKIT_AUTHORIZATION_CONSTRAINT_REQUIRE_ACTIVE = 0 <;>
      simp [h1, h2]
  · rcases l with _ | _ | _ <;> rcases a with _ | _ | _ <;> decide
  · rcases l with _ | _ | _ <;> rcases a with _ | _ | _ <;> decide

/-- C2: for a constraint `c` and a valid caller: when the session query succeeds with a
non-NULL session `s`, the caller check is the session check on `s`; when the query fails or
stores a `NULL` session, the caller check is `TRUE` exactly when `c.flags` is 0, hence `TRUE`
for the null constraint and `FALSE` for local, active and local+active. -/
theorem check_caller_spec (c : PolKitAuthorizationConstraint) (caller : PolKitCaller) :
    (∀ s : PolKitSession, polkit_caller_get_ck_session (some caller) = some (some s) →
      polkit_authorization_constraint_check_caller (some c) (some caller) =
        polkit_authorization_constraint_check_session (some c) (some s)) ∧
    ((polkit_caller_get_ck_session (some caller) = none ∨
        polkit_caller_get_ck_session (some caller) = some none) →
      ((polkit_authorization_constraint_check_caller (some c) (some caller) = true ↔
          c.flags = 0) ∧
       polkit_authorization_constraint_check_caller
         (some polkit_authorization_constraint_get_null) (some caller) = true ∧
       polkit_authorization_constraint_check_caller
         (some polkit_authorization_constraint_get_require_local) (some caller) = false ∧
       polkit_authorization_constraint_check_caller
         (some polkit_authorization_constraint_get_require_active) (some caller) = false ∧
       polkit_authorization_constraint_check_caller
         (some polkit_authorization_constraint_get_require_local_active) (some caller)
           = false)) := by
  obtain ⟨q⟩ := caller
  constructor
  · intro s h
    simp only [polkit_caller_get_ck_session] at h
    subst h
    rfl
  · intro h
    simp only [polkit_caller_get_ck_session] at h
    rcases h with h | h <;> subst h
    · refine ⟨?_, by decide, by decide, by decide, by decide⟩
      by_cases h0 : c.flags = 0 <;>
        simp [polkit_authorization_constraint_check_caller, polkit_caller_get_ck_session, h0]
    · refine ⟨?_, by decide, by decide, by decide, by decide⟩
      by_cases h0 : c.flags = 0 <;>
        simp [polkit_authorization_constraint_check_caller, polkit_caller_get_ck_session, h0]

/-- Witness for `check_caller_spec`: a caller in a session where only locality is known, and a
caller whose session query fails, both against the require-local constraint. -/
theorem check_caller_spec_witness :
    polkit_authorization_constraint_check_caller (some _local_constraint)
        (some ⟨some (some ⟨some true, none⟩)⟩) =
      polkit_authorization_constraint_check_session (some _local_constraint)
        (some ⟨some true, none⟩) ∧
    (polkit_authorization_constraint_check_caller (some _local_constraint) (some ⟨none⟩) = true ↔
      _local_constraint.flags = 0) :=
  ⟨(check_caller_spec _local_constraint ⟨some (some ⟨some true, none⟩)⟩).1 ⟨some true, none⟩ rfl,
   ((check_caller_spec _local_constraint ⟨none⟩).2 (Or.inl rfl)).1⟩

/-! ## Deriving -/

/-- C3: for a caller whose session query stores a session `s`, the derived constraint is the
canonical singleton for the pair (is_local, is_active) read from `s`, a failed query counting
as `TRUE`: (T,T) local+active, (T,F) local, (F,T) active, (F,F) null. A session with local
known true and active known false gives require-local; a session with both unknown gives
local+active. -/
theorem get_from_caller_with_session (caller : PolKitCaller) (s : PolKitSession)
    (h : polkit_caller_get_ck_session (some caller) = some (some s)) :
    polkit_authorization_constraint_get_from_caller (some caller) =
      (match (polkit_session_get_ck_is_local (some s)).getD true,
             (polkit_session_get_ck_is_active (some s)).getD true with
       | true, true => polkit_authorization_constraint_get_require_local_active
       | true, false => polkit_authorization_constraint_get_require_local
       | false, true => polkit_authorization_constraint_get_require_active
       | false, false => polkit_authorization_constraint_get_null) ∧
    (s = ⟨some true, some false⟩ →
      polkit_authorization_constraint_get_from_caller (some caller) =
        polkit_authorization_constraint_get_require_local) ∧
    (s = ⟨none, none⟩ →
      polkit_authorization_constraint_get_from_caller (some caller) =
        polkit_authorization_constraint_get_require_local_active) := by
  obtain ⟨q⟩ := caller
  simp only [polkit_caller_get_ck_session] at h
  subst h
  obtain ⟨l, a⟩ := s
  refine ⟨?_, ?_, ?_⟩
  · rcases l with _ | _ | _ <;> rcases a with _ | _ | _ <;> rfl
  · intro hs
    cases hs
    rfl
  · intro hs
    cases hs
    rfl

/-- Witness for `get_from_caller_with_session`: a session known local and known inactive. -/
theorem get_from_caller_with_session_witness :
    polkit_caller_get_ck_session (some ⟨some (some ⟨some true, some false⟩)⟩) =
        some (some ⟨some true, some false⟩) ∧
    polkit_authorization_constraint_get_from_caller
        (some ⟨some (some ⟨some true, some false⟩)⟩) =
      polkit_authorization_constraint_get_require_local :=
  ⟨rfl, (get_from_caller_with_session ⟨some (some ⟨some true, some false⟩)⟩
    ⟨some true, some false⟩ rfl).2.1 rfl⟩

/-- C4 (evaluation of the code): a caller whose session query fails gets the null constraint,
but a caller whose session query succeeds with a `NULL` session handle, which the caller
check treats as session-less, gets local+active, not the null constraint. -/
theorem get_from_caller_null_session_handle :
    polkit_authorization_constraint_get_from_caller (some ⟨none⟩) =
      polkit_authorization_constraint_get_null ∧
    polkit_caller_get_ck_session (some ⟨some none⟩) = some none ∧
    polkit_authorization_constraint_get_from_caller (some ⟨some none⟩) =
      polkit_authorization_constraint_get_require_local_active ∧
    (polkit_authorization_constraint_get_from_caller (some ⟨some none⟩)).flags ≠ 0 ∧
    polkit_authorization_constraint_check_caller
      (some polkit_authorization_constraint_get_null) (some ⟨some none⟩) = true := by
  decide

/-- C5 (counterexample): a caller in a session whose locality is unknown and which is known
active derives local+active, and the check of that constraint against the same caller is
`FALSE`. -/
theorem derive_then_check_unknown_fails :
    polkit_authorization_constraint_get_from_caller (some ⟨some (some ⟨none, some true⟩)⟩) =
      polkit_authorization_constraint_get_require_local_active ∧
    polkit_authorization_constraint_check_caller
      (some (polkit_authorization_constraint_get_from_caller
        (some ⟨some (some ⟨none, some true⟩)⟩)))
      (some ⟨some (some ⟨none, some true⟩)⟩) = false := by
  decide

/-- C5 (amended): checking the derived constraint against the same caller is `TRUE` when the
session query fails, and, for a caller in a session, it is `TRUE` exactly when the session
reports both is-local and is-active as known. -/
theorem derive_then_check (caller : PolKitCaller) :
    (polkit_caller_get_ck_session (some caller) = none →
      polkit_authorization_constraint_check_caller
        (some (polkit_authorization_constraint_get_from_caller (some caller)))
        (some caller) = true) ∧
    (∀ s : PolKitSession, polkit_caller_get_ck_session (some caller) = some (some s) →
      (polkit_authorization_constraint_check_caller
        (some (polkit_authorization_constraint_get_from_caller (some caller)))
        (some caller) = true ↔
       ((polkit_session_get_ck_is_local (some s)).isSome = true ∧
        (polkit_session_get_ck_is_active (some s)).isSome = true))) := by
  obtain ⟨q⟩ := caller
  constructor
  · intro h
    simp only [polkit_caller_get_ck_session] at h
    subst h
    decide
  · intro s h
    simp only [polkit_caller_get_ck_session] at h
    subst h
    obtain ⟨l, a⟩ := s
    rcases l with _ | _ | _ <;> rcases a with _ | _ | _ <;> decide

/-- Witness for `derive_then_check`: a caller whose session query fails, and a caller in a
session known local and known inactive. -/
theorem derive_then_check_witness :
    polkit_authorization_constraint_check_caller
        (some (polkit_authorization_constraint_get_from_caller (some ⟨none⟩)))
        (some ⟨none⟩) = true ∧
    (polkit_authorization_constraint_check_caller
        (some (polkit_authorization_constraint_get_from_caller
          (some ⟨some (some ⟨some true, some false⟩)⟩)))
        (some ⟨some (some ⟨some true, some false⟩)⟩) = true ↔
      ((polkit_session_get_ck_is_local (some ⟨some true, some false⟩)).isSome = true ∧
       (polkit_session_get_ck_is_active (some ⟨some true, some false⟩)).isSome = true)) :=
  ⟨(derive_then_check ⟨none⟩).1 rfl,
   (derive_then_check ⟨some (some ⟨some true, some false⟩)⟩).2 ⟨some true, some false⟩ rfl⟩

/-! ## Text form: buffer lemmas -/

theorem takeWhile_append_nul (l rest : List Char) (h : ∀ ch ∈ l, ch ≠ Char.ofNat 0) :
    List.takeWhile (fun ch => ch != Char.ofNat 0) (l ++ Char.ofNat 0 :: rest) = l := by
  induction l with
  | nil => simp
  | cons x xs ih =>
    have hx : x ≠ Char.ofNat 0 := h x (List.mem_cons_self x xs)
    have hxs : ∀ ch ∈ xs, ch ≠ Char.ofNat 0 := fun ch hc => h ch (List.mem_cons_of_mem x hc)
    simp [List.takeWhile_cons, hx, ih hxs]

theorem string_length_data (text : String) : text.length = text.data.length := by
  cases text
  rfl

/-- When the text and its NUL fit, `snprintf` stores the whole text followed by a NUL, leaves
the rest of the buffer as it was, and returns the length of the text. -/
theorem snprintf_fits (out_buf : List Char) (buf_size : Nat) (text : String)
    (h : text.length < buf_size) :
    snprintf out_buf buf_size text =
      (text.data ++ Char.ofNat 0 :: out_buf.drop (text.length + 1), text.length) := by
  have h0 : buf_size ≠ 0 := by omega
  have hl : text.data.length ≤ buf_size - 1 := by
    rw [← string_length_data]
    omega
  have hs : (text.data ++ [Char.ofNat 0]).length = text.length + 1 := by
    rw [string_length_data]
    simp
  unfold snprintf
  rw [if_neg h0]
  simp only [List.take_of_length_le hl, hs, List.append_assoc, List.singleton_append]

/-- With a non-empty buffer, the C string left by `snprintf` is the text cut to
`buf_size - 1` characters (for a text without NUL). -/
theorem c_str_snprintf (out_buf : List Char) (buf_size : Nat) (text : String)
    (h0 : buf_size ≠ 0) (hn : ∀ ch ∈ text.data, ch ≠ Char.ofNat 0) :
    c_str (snprintf out_buf buf_size text).1 = text.data.take (buf_size - 1) := by
  have hk : ∀ ch ∈ text.data.take (buf_size - 1), ch ≠ Char.ofNat 0 :=
    fun ch hc => hn ch (List.mem_of_mem_take hc)
  simp only [snprintf, h0, if_false, c_str, List.append_assoc, List.singleton_append]
  exact takeWhile_append_nul _ _ hk

theorem c_str_snprintf_fits (out_buf : List Char) (buf_size : Nat) (text : String)
    (h : text.length < buf_size) (hn : ∀ ch ∈ text.data, ch ≠ Char.ofNat 0) :
    c_str (snprintf out_buf buf_size text).1 = text.data := by
  rw [snprintf_fits out_buf buf_size text h]
  exact takeWhile_append_nul _ _ hn

theorem to_string_of_flags (c : PolKitAuthorizationConstraint) (out_buf : List Char)
    (buf_size : Nat) :
    (c.flags = 0 →
      polkit_authorization_constraint_to_string (some c) out_buf buf_size =
        snprintf out_buf buf_size "none") ∧
    (c.flags = POLKIT_AUTHORIZATION_CONSTRAINT_REQUIRE_LOCAL →
      polkit_authorization_constraint_to_string (some c) out_buf buf_size =
        snprintf out_buf buf_size "local") ∧
    (c.flags = POLKIT_AUTHORIZATION_CONSTRAINT_REQUIRE_ACTIVE →
      polkit_authorization_constraint_to_string (some c) out_buf buf_size =
        snprintf out_buf buf_size "active") ∧
    (c.flags = POLKIT_AUTHORIZATION_CONSTRAINT_REQUIRE_LOCAL |||
        POLKIT_AUTHORIZATION_CONSTRAINT_REQUIRE_ACTIVE →
      polkit_authorization_constraint_to_string (some c) out_buf buf_size =
        snprintf out_buf buf_size "local+active") := by
  refine ⟨?_, ?_, ?_, ?_⟩ <;> intro h <;>
    simp [polkit_authorization_constraint_to_string, h,
      POLKIT_AUTHORIZATION_CONSTRAINT_REQUIRE_LOCAL,
      POLKIT_AUTHORIZATION_CONSTRAINT_REQUIRE_ACTIVE]

theorem token_no_nul :
    (∀ ch ∈ "none".data, ch ≠ Char.ofNat 0) ∧ (∀ ch ∈ "local".data, ch ≠ Char.ofNat 0) ∧
    (∀ ch ∈ "active".data, ch ≠ Char.ofNat 0) ∧
    (∀ ch ∈ "local+active".data, ch ≠ Char.ofNat 0) := by
  decide

/-- The shape of every string that parses: one of the four tokens, with its singleton. -/
theorem from_string_cases (s : String) (r : PolKitAuthorizationConstraint)
    (h : polkit_authorization_constraint_from_string (some s) = some r) :
    (s = "none" ∧ r = _null_constraint) ∨ (s = "local" ∧ r = _local_constraint) ∨
    (s = "active" ∧ r = _active_constraint) ∨
    (s = "local+active" ∧ r = _local_active_constraint) := by
  unfold polkit_authorization_constraint_from_string at h
  simp only at h
  split_ifs at h with h1 h2 h3 h4
  · exact Or.inl ⟨h1, (Option.some.inj h).symm⟩
  · exact Or.inr (Or.inl ⟨h2, (Option.some.inj h).symm⟩)
  · exact Or.inr (Or.inr (Or.inl ⟨h3, (Option.some.inj h).symm⟩))
  · exact Or.inr (Or.inr (Or.inr ⟨h4, (Option.some.inj h).symm⟩))

/-! ## Text form: the claims -/

/-- C6: text round trip. For each of the four canonical constraints, writing it with
`to_string` into a buffer longer than its token and parsing the C string left in the buffer
with `from_string` gives a non-NULL constraint that `equal` reports equal to the original. -/
theorem to_string_from_string_roundtrip (out_buf : List Char) (buf_size : Nat) :
    (4 < buf_size → ∃ r,
      polkit_authorization_constraint_from_string (some (String.mk (c_str
        (polkit_authorization_constraint_to_string
          (some polkit_authorization_constraint_get_null) out_buf buf_size).1))) = some r ∧
      polkit_authorization_constraint_equal (some r)
        (some polkit_authorization_constraint_get_null) = true) ∧
    (5 < buf_size → ∃ r,
      polkit_authorization_constraint_from_string (some (String.mk (c_str
        (polkit_authorization_constraint_to_string
          (some polkit_authorization_constraint_get_require_local) out_buf buf_size).1)))
        = some r ∧
      polkit_authorization_constraint_equal (some r)
        (some polkit_authorization_constraint_get_require_local) = true) ∧
    (6 < buf_size → ∃ r,
      polkit_authorization_constraint_from_string (some (String.mk (c_str
        (polkit_authorization_constraint_to_string
          (some polkit_authorization_constraint_get_require_active) out_buf buf_size).1)))
        = some r ∧
      polkit_authorization_constraint_equal (some r)
        (some polkit_authorization_constraint_get_require_active) = true) ∧
    (12 < buf_size → ∃ r,
      polkit_authorization_constraint_from_string (some (String.mk (c_str
        (polkit_authorization_constraint_to_string
          (some polkit_authorization_constraint_get_require_local_active)
          out_buf buf_size).1))) = some r ∧
      polkit_authorization_constraint_equal (some r)
        (some polkit_authorization_constraint_get_require_local_active) = true) := by
  refine ⟨?_, ?_, ?_, ?_⟩
  · intro h
    refine ⟨_null_constraint, ?_, by decide⟩
    rw [(to_string_of_flags polkit_authorization_constraint_get_null out_buf buf_size).1 rfl,
      c_str_snprintf_fits out_buf buf_size "none" h token_no_nul.1]
    decide
  · intro h
    refine ⟨_local_constraint, ?_, by decide⟩
    rw [(to_string_of_flags polkit_authorization_constraint_get_require_local
        out_buf buf_size).2.1 rfl,
      c_str_snprintf_fits out_buf buf_size "local" h token_no_nul.2.1]
    decide
  · intro h
    refine ⟨_active_constraint, ?_, by decide⟩
    rw [(to_string_of_flags polkit_authorization_constraint_get_require_active
        out_buf buf_size).2.2.1 rfl,
      c_str_snprintf_fits out_buf buf_size "active" h token_no_nul.2.2.1]
    decide
  · intro h
    refine ⟨_local_active_constraint, ?_, by decide⟩
    rw [(to_string_of_flags polkit_authorization_constraint_get_require_local_active
        out_buf buf_size).2.2.2 rfl,
      c_str_snprintf_fits out_buf buf_size "local+active" h token_no_nul.2.2.2]
    decide

/-- Witness for `to_string_from_string_roundtrip`: the local+active singleton written into a
16-byte buffer and parsed back. -/
theorem to_string_from_string_roundtrip_witness :
    12 < 16 ∧ ∃ r,
      polkit_authorization_constraint_from_string (some (String.mk (c_str
        (polkit_authorization_constraint_to_string
          (some polkit_authorization_constraint_get_require_local_active)
          (List.replicate 16 (Char.ofNat 120)) 16).1))) = some r ∧
      polkit_authorization_constraint_equal (some r)
        (some polkit_authorization_constraint_get_require_local_active) = true :=
  ⟨by decide,
   (to_string_from_string_roundtrip (List.replicate 16 (Char.ofNat 120)) 16).2.2.2
     (by decide)⟩

/-- C7: for a non-NULL string `s`, `from_string` returns a constraint exactly when `s` is one
of `none`, `local`, `active`, `local+active`, and `NULL` otherwise; in particular it returns
`NULL` on `bogus`, on the empty string, on `LOCAL`, on tokens with a leading or trailing
blank, and on `active+local`. -/
theorem from_string_accepts_iff (s : String) :
    ((polkit_authorization_constraint_from_string (some s)).isSome = true ↔
      (s = "none" ∨ s = "local" ∨ s = "active" ∨ s = "local+active")) ∧
    (polkit_authorization_constraint_from_string (some s) = none ↔
      ¬ (s = "none" ∨ s = "local" ∨ s = "active" ∨ s = "local+active")) ∧
    polkit_authorization_constraint_from_string (some "bogus") = none ∧
    polkit_authorization_constraint_from_string (some "") = none ∧
    polkit_authorization_constraint_from_string (some "LOCAL") = none ∧
    polkit_authorization_constraint_from_string (some "None") = none ∧
    polkit_authorization_constraint_from_string (some " local") = none ∧
    polkit_authorization_constraint_from_string (some "local ") = none ∧
    polkit_authorization_constraint_from_string (some "active\n") = none ∧
    polkit_authorization_constraint_from_string (some "active+local") = none := by
  refine ⟨?_, ?_, by decide, by decide, by decide, by decide, by decide, by decide,
    by decide, by decide⟩
  · unfold polkit_authorization_constraint_from_string
    simp only
    split_ifs <;> simp_all
  · unfold polkit_authorization_constraint_from_string
    simp only
    split_ifs <;> simp_all

/-- C8: when `from_string` succeeds on `s` with result `r`, `to_string` on `r` with a buffer
longer than `s` stores exactly `s` (followed by a NUL, the rest of the buffer untouched) and
returns the length of `s`; so no other string parses to the same constraint. -/
theorem from_string_to_string (s : String) (r : PolKitAuthorizationConstraint)
    (h : polkit_authorization_constraint_from_string (some s) = some r) :
    (∀ (out_buf : List Char) (buf_size : Nat), s.length < buf_size →
      polkit_authorization_constraint_to_string (some r) out_buf buf_size =
        (s.data ++ Char.ofNat 0 :: out_buf.drop (s.length + 1), s.length) ∧
      c_str (polkit_authorization_constraint_to_string (some r) out_buf buf_size).1 = s.data) ∧
    (∀ s2 : String, polkit_authorization_constraint_from_string (some s2) = some r →
      s2 = s) := by
  rcases from_string_cases s r h with ⟨hs, hr⟩ | ⟨hs, hr⟩ | ⟨hs, hr⟩ | ⟨hs, hr⟩ <;>
    subst hs <;> subst hr
  · refine ⟨fun out_buf buf_size hb => ?_, fun s2 h2 => ?_⟩
    · rw [(to_string_of_flags _null_constraint out_buf buf_size).1 rfl]
      exact ⟨snprintf_fits _ _ _ hb, c_str_snprintf_fits _ _ _ hb token_no_nul.1⟩
    · rcases from_string_cases s2 _ h2 with ⟨e, _⟩ | ⟨_, e⟩ | ⟨_, e⟩ | ⟨_, e⟩
      · exact e
      · exact absurd e (by decide)
      · exact absurd e (by decide)
      · exact absurd e (by decide)
  · refine ⟨fun out_buf buf_size hb => ?_, fun s2 h2 => ?_⟩
    · rw [(to_string_of_flags _local_constraint out_buf buf_size).2.1 rfl]
      exact ⟨snprintf_fits _ _ _ hb, c_str_snprintf_fits _ _ _ hb token_no_nul.2.1⟩
    · rcases from_string_cases s2 _ h2 with ⟨_, e⟩ | ⟨e, _⟩ | ⟨_, e⟩ | ⟨_, e⟩
      · exact absurd e (by decide)
      · exact e
      · exact absurd e (by decide)
      · exact absurd e (by decide)
  · refine ⟨fun out_buf buf_size hb => ?_, fun s2 h2 => ?_⟩
    · rw [(to_string_of_flags _active_constraint out_buf buf_size).2.2.1 rfl]
      exact ⟨snprintf_fits _ _ _ hb, c_str_snprintf_fits _ _ _ hb token_no_nul.2.2.1⟩
    · rcases from_string_cases s2 _ h2 with ⟨_, e⟩ | ⟨_, e⟩ | ⟨e, _⟩ | ⟨_, e⟩
      · exact absurd e (by decide)
      · exact absurd e (by decide)
      · exact e
      · exact absurd e (by decide)
  · refine ⟨fun out_buf buf_size hb => ?_, fun s2 h2 => ?_⟩
    · rw [(to_string_of_flags _local_active_constraint out_buf buf_size).2.2.2 rfl]
      exact ⟨snprintf_fits _ _ _ hb, c_str_snprintf_fits _ _ _ hb token_no_nul.2.2.2⟩
    · rcases from_string_cases s2 _ h2 with ⟨_, e⟩ | ⟨_, e⟩ | ⟨_, e⟩ | ⟨e, _⟩
      · exact absurd e (by decide)
      · exact absurd e (by decide)
      · exact absurd e (by decide)
      · exact e

/-- Witness for `from_string_to_string`: the token `active`, written back into an 8-byte
buffer declared with size 7. -/
theorem from_string_to_string_witness :
    polkit_authorization_constraint_from_string (some "active") = some _active_constraint ∧
    "active".length < 7 ∧
    polkit_authorization_constraint_to_string (some _active_constraint)
        (List.replicate 8 (Char.ofNat 120)) 7 =
      ("active".data ++ Char.ofNat 0 :: (List.replicate 8 (Char.ofNat 120)).drop
        ("active".length + 1), "active".length) :=
  ⟨by decide, by decide,
   ((from_string_to_string "active" _active_constraint (by decide)).1
     (List.replicate 8 (Char.ofNat 120)) 7 (by decide)).1⟩

/-- C9: for a constraint whose flags are one of the four canonical values and a `buf_size`
greater than the token length, `to_string` stores exactly the table token (then a NUL, the
rest of the buffer untouched) and returns its length: 0 gives `none` (4), REQUIRE_LOCAL
gives `local` (5), REQUIRE_ACTIVE gives `active` (6), both bits give `local+active` (12). -/
theorem to_string_canonical (c : PolKitAuthorizationConstraint) (out_buf : List Char)
    (buf_size : Nat) :
    (c.flags = 0 → 4 < buf_size →
      polkit_authorization_constraint_to_string (some c) out_buf buf_size =
        ("none".data ++ Char.ofNat 0 :: out_buf.drop 5, 4) ∧
      c_str (polkit_authorization_constraint_to_string (some c) out_buf buf_size).1 =
        "none".data) ∧
    (c.flags = POLKIT_AUTHORIZATION_CONSTRAINT_REQUIRE_LOCAL → 5 < buf_size →
      polkit_authorization_constraint_to_string (some c) out_buf buf_size =
        ("local".data ++ Char.ofNat 0 :: out_buf.drop 6, 5) ∧
      c_str (polkit_authorization_constraint_to_string (some c) out_buf buf_size).1 =
        "local".data) ∧
    (c.flags = POLKIT_AUTHORIZATION_CONSTRAINT_REQUIRE_ACTIVE → 6 < buf_size →
      polkit_authorization_constraint_to_string (some c) out_buf buf_size =
        ("active".data ++ Char.ofNat 0 :: out_buf.drop 7, 6) ∧
      c_str (polkit_authorization_constraint_to_string (some c) out_buf buf_size).1 =
        "active".data) ∧
    (c.flags = POLKIT_AUTHORIZATION_CONSTRAINT_REQUIRE_LOCAL |||
        POLKIT_AUTHORIZATION_CONSTRAINT_REQUIRE_ACTIVE → 12 < buf_size →
      polkit_authorization_constraint_to_string (some c) out_buf buf_size =
        ("local+active".data ++ Char.ofNat 0 :: out_buf.drop 13, 12) ∧
      c_str (polkit_authorization_constraint_to_string (some c) out_buf buf_size).1 =
        "local+active".data) := by
  refine ⟨fun hf hb => ?_, fun hf hb => ?_, fun hf hb => ?_, fun hf hb => ?_⟩
  · rw [(to_string_of_flags c out_buf buf_size).1 hf]
    exact ⟨snprintf_fits out_buf buf_size "none" hb,
      c_str_snprintf_fits out_buf buf_size "none" hb token_no_nul.1⟩
  · rw [(to_string_of_flags c out_buf buf_size).2.1 hf]
    exact ⟨snprintf_fits out_buf buf_size "local" hb,
      c_str_snprintf_fits out_buf buf_size "local" hb token_no_nul.2.1⟩
  · rw [(to_string_of_flags c out_buf buf_size).2.2.1 hf]
    exact ⟨snprintf_fits out_buf buf_size "active" hb,
      c_str_snprintf_fits out_buf buf_size "active" hb token_no_nul.2.2.1⟩
  · rw [(to_string_of_flags c out_buf buf_size).2.2.2 hf]
    exact ⟨snprintf_fits out_buf buf_size "local+active" hb,
      c_str_snprintf_fits out_buf buf_size "local+active" hb token_no_nul.2.2.2⟩

/-- Witness for `to_string_canonical`: a heap constraint (refcount 1) with flags
REQUIRE_LOCAL, written into a 6-byte buffer. -/
theorem to_string_canonical_witness :
    (⟨1, 1⟩ : PolKitAuthorizationConstraint).flags =
      POLKIT_AUTHORIZATION_CONSTRAINT_REQUIRE_LOCAL ∧ 5 < 6 ∧
    polkit_authorization_constraint_to_string (some ⟨1, 1⟩)
        (List.replicate 6 (Char.ofNat 120)) 6 =
      ("local".data ++ Char.ofNat 0 :: (List.replicate 6 (Char.ofNat 120)).drop 6, 5) :=
  ⟨rfl, by decide,
   ((to_string_canonical ⟨1, 1⟩ (List.replicate 6 (Char.ofNat 120)) 6).2.1 rfl
     (by decide)).1⟩

/-- C10: for a constraint whose flags are none of the four canonical values, and every
`buf_size`, `to_string` leaves the buffer as it was and returns `buf_size`; and for every
constraint, the buffer is either left as it was or holds a C string that is an initial
segment of one of the four tokens. -/
theorem to_string_noncanonical (c : PolKitAuthorizationConstraint) (out_buf : List Char)
    (buf_size : Nat) :
    (c.flags ≠ 0 → c.flags ≠ POLKIT_AUTHORIZATION_CONSTRAINT_REQUIRE_LOCAL →
      c.flags ≠ POLKIT_AUTHORIZATION_CONSTRAINT_REQUIRE_ACTIVE →
      c.flags ≠ POLKIT_AUTHORIZATION_CONSTRAINT_REQUIRE_LOCAL |||
        POLKIT_AUTHORIZATION_CONSTRAINT_REQUIRE_ACTIVE →
      polkit_authorization_constraint_to_string (some c) out_buf buf_size =
        (out_buf, buf_size)) ∧
    ((polkit_authorization_constraint_to_string (some c) out_buf buf_size).1 = out_buf ∨
      ∃ tok ∈ ["none", "local", "active", "local+active"], ∃ k : Nat,
        c_str (polkit_authorization_constraint_to_string (some c) out_buf buf_size).1 =
          tok.data.take k) := by
  constructor
  · intro h0 h1 h2 h3
    simp [polkit_authorization_constraint_to_string, h0, h1, h2, h3]
  · by_cases hb : buf_size = 0
    · left
      subst hb
      unfold polkit_authorization_constraint_to_string snprintf
      simp only
      split_ifs <;> rfl
    · by_cases h0 : c.flags = 0
      · right
        refine ⟨"none", by simp, buf_size - 1, ?_⟩
        rw [(to_string_of_flags c out_buf buf_size).1 h0]
        exact c_str_snprintf out_buf buf_size "none" hb token_no_nul.1
      · by_cases h1 : c.flags = POLKIT_AUTHORIZATION_CONSTRAINT_REQUIRE_LOCAL
        · right
          refine ⟨"local", by simp, buf_size - 1, ?_⟩
          rw [(to_string_of_flags c out_buf buf_size).2.1 h1]
          exact c_str_snprintf out_buf buf_size "local" hb token_no_nul.2.1
        · by_cases h2 : c.flags = POLKIT_AUTHORIZATION_CONSTRAINT_REQUIRE_ACTIVE
          · right
            refine ⟨"active", by simp, buf_size - 1, ?_⟩
            rw [(to_string_of_flags c out_buf buf_size).2.2.1 h2]
            exact c_str_snprintf out_buf buf_size "active" hb token_no_nul.2.2.1
          · by_cases h3 : c.flags = POLKIT_AUTHORIZATION_CONSTRAINT_REQUIRE_LOCAL |||
                POLKIT_AUTHORIZATION_CONSTRAINT_REQUIRE_ACTIVE
            · right
              refine ⟨"local+active", by simp, buf_size - 1, ?_⟩
              rw [(to_string_of_flags c out_buf buf_size).2.2.2 h3]
              exact c_str_snprintf out_buf buf_size "local+active" hb token_no_nul.2.2.2
            · left
              simp [polkit_authorization_constraint_to_string, h0, h1, h2, h3]

/-- Witness for `to_string_noncanonical`: flags 4 (a bit outside the two named ones), with a
3-byte buffer. -/
theorem to_string_noncanonical_witness :
    (⟨1, 4⟩ : PolKitAuthorizationConstraint).flags ≠ 0 ∧
    (⟨1, 4⟩ : PolKitAuthorizationConstraint).flags ≠
      POLKIT_AUTHORIZATION_CONSTRAINT_REQUIRE_LOCAL ∧
    (⟨1, 4⟩ : PolKitAuthorizationConstraint).flags ≠
      POLKIT_AUTHORIZATION_CONSTRAINT_REQUIRE_ACTIVE ∧
    (⟨1, 4⟩ : PolKitAuthorizationConstraint).flags ≠
      POLKIT_AUTHORIZATION_CONSTRAINT_REQUIRE_LOCAL |||
        POLKIT_AUTHORIZATION_CONSTRAINT_REQUIRE_ACTIVE ∧
    polkit_authorization_constraint_to_string (some ⟨1, 4⟩)
        (List.replicate 3 (Char.ofNat 120)) 3 =
      (List.replicate 3 (Char.ofNat 120), 3) :=
  ⟨by decide, by decide, by decide, by decide,
   (to_string_noncanonical ⟨1, 4⟩ (List.replicate 3 (Char.ofNat 120)) 3).1
     (by decide) (by decide) (by decide) (by decide)⟩

/-! ## Equality and the four classes -/

theorem equal_iff_flags (a b : PolKitAuthorizationConstraint) :
    polkit_authorization_constraint_equal (some a) (some b) = true ↔ a.flags = b.flags := by
  simp [polkit_authorization_constraint_equal]

/-- A constraint with canonical flags is related by `equal` to exactly one canonical
constraint. -/
theorem one_class_of_canonical_flags (c : PolKitAuthorizationConstraint)
    (h : canonical_flags c.flags) : in_one_canonical_class c := by
  refine ⟨h, ?_⟩
  have hmem : ∀ k, k ∈ canonical_constraints ↔
      (k = _null_constraint ∨ k = _local_constraint ∨ k = _active_constraint ∨
        k = _local_active_constraint) := by
    intro k
    simp [canonical_constraints, polkit_authorization_constraint_get_null,
      polkit_authorization_constraint_get_require_local,
      polkit_authorization_constraint_get_require_active,
      polkit_authorization_constraint_get_require_local_active]
  have hflags : _null_constraint.flags = 0 ∧ _local_constraint.flags = 1 ∧
      _active_constraint.flags = 2 ∧ _local_active_constraint.flags = 3 := by
    decide
  obtain ⟨f0, f1, f2, f3⟩ := hflags
  have hc : c.flags = 0 ∨ c.flags = 1 ∨ c.flags = 2 ∨ c.flags = 3 := h
  rcases hc with hc | hc | hc | hc
  · refine ⟨_null_constraint, ⟨(hmem _).2 (Or.inl rfl), (equal_iff_flags _ _).2 (by omega)⟩, ?_⟩
    rintro k ⟨hk, he⟩
    have he2 := (equal_iff_flags _ _).1 he
    rcases (hmem k).1 hk with e | e | e | e <;> subst e
    · rfl
    · omega
    · omega
    · omega
  · refine ⟨_local_constraint, ⟨(hmem _).2 (Or.inr (Or.inl rfl)),
      (equal_iff_flags _ _).2 (by omega)⟩, ?_⟩
    rintro k ⟨hk, he⟩
    have he2 := (equal_iff_flags _ _).1 he
    rcases (hmem k).1 hk with e | e | e | e <;> subst e
    · omega
    · rfl
    · omega
    · omega
  · refine ⟨_active_constraint, ⟨(hmem _).2 (Or.inr (Or.inr (Or.inl rfl))),
      (equal_iff_flags _ _).2 (by omega)⟩, ?_⟩
    rintro k ⟨hk, he⟩
    have he2 := (equal_iff_flags _ _).1 he
    rcases (hmem k).1 hk with e | e | e | e <;> subst e
    · omega
    · omega
    · rfl
    · omega
  · refine ⟨_local_active_constraint, ⟨(hmem _).2 (Or.inr (Or.inr (Or.inr rfl))),
      (equal_iff_flags _ _).2 (by omega)⟩, ?_⟩
    rintro k ⟨hk, he⟩
    have he2 := (equal_iff_flags _ _).1 he
    rcases (hmem k).1 hk with e | e | e | e <;> subst e
    · omega
    · omega
    · omega
    · rfl

/-- C11: `equal` is structural equality on the flags: for all constraints `a`, `b` it is
`TRUE` exactly when `a.flags == b.flags`, whatever the reference counts are; it is
reflexive, symmetric and transitive. -/
theorem equal_structural (a b c : PolKitAuthorizationConstraint) :
    (polkit_authorization_constraint_equal (some a) (some b) = true ↔ a.flags = b.flags) ∧
    (∀ r1 r2 : Int,
      polkit_authorization_constraint_equal (some ⟨r1, a.flags⟩) (some ⟨r2, b.flags⟩) =
        polkit_authorization_constraint_equal (some a) (some b)) ∧
    polkit_authorization_constraint_equal (some a) (some a) = true ∧
    (polkit_authorization_constraint_equal (some a) (some b) =
      polkit_authorization_constraint_equal (some b) (some a)) ∧
    (polkit_authorization_constraint_equal (some a) (some b) = true →
      polkit_authorization_constraint_equal (some b) (some c) = true →
      polkit_authorization_constraint_equal (some a) (some c) = true) := by
  refine ⟨equal_iff_flags a b, fun _ _ => rfl, (equal_iff_flags a a).2 rfl, ?_, ?_⟩
  · by_cases h : a.flags = b.flags
    · rw [(equal_iff_flags a b).2 h, (equal_iff_flags b a).2 h.symm]
    · have h1 : polkit_authorization_constraint_equal (some a) (some b) = false := by
        simpa [polkit_authorization_constraint_equal] using h
      have h2 : polkit_authorization_constraint_equal (some b) (some a) = false := by
        simpa [polkit_authorization_constraint_equal] using fun e : b.flags = a.flags => h e.symm
      rw [h1, h2]
  · intro hab hbc
    exact (equal_iff_flags a c).2
      (((equal_iff_flags a b).1 hab).trans ((equal_iff_flags b c).1 hbc))

/-- Witness for `equal_structural`: a static singleton, a heap object with refcount 2 and a
heap object with refcount 7, all with flags REQUIRE_ACTIVE. -/
theorem equal_structural_witness :
    polkit_authorization_constraint_equal (some _active_constraint) (some ⟨2, 2⟩) = true ∧
    polkit_authorization_constraint_equal (some ⟨2, 2⟩) (some ⟨7, 2⟩) = true ∧
    polkit_authorization_constraint_equal (some _active_constraint) (some ⟨7, 2⟩) = true :=
  ⟨by decide, by decide,
   (equal_structural _active_constraint ⟨2, 2⟩ ⟨7, 2⟩).2.2.2.2 (by decide) (by decide)⟩

/-- C12: every constraint the module produces (the four getters, `from_string`,
`get_from_caller`, `_polkit_authorization_constraint_new`) has canonical flags and is
related by `equal` to exactly one of the four canonical constraints; the four canonical
constraints are pairwise unequal, `equal (require_local, require_active)` is `FALSE` and
`equal (require_local_active, require_local_active)` is `TRUE`. -/
theorem produced_constraints_canonical :
    (∀ c ∈ canonical_constraints, in_one_canonical_class c) ∧
    (∀ (s : String) (r : PolKitAuthorizationConstraint),
      polkit_authorization_constraint_from_string (some s) = some r →
        in_one_canonical_class r) ∧
    (∀ caller : Option PolKitCaller,
      in_one_canonical_class (polkit_authorization_constraint_get_from_caller caller)) ∧
    (∀ entry : Option String,
      in_one_canonical_class (_polkit_authorization_constraint_new entry)) ∧
    List.Pairwise
      (fun x y => polkit_authorization_constraint_equal (some x) (some y) = false ∧
        polkit_authorization_constraint_equal (some y) (some x) = false)
      canonical_constraints ∧
    polkit_authorization_constraint_equal
      (some polkit_authorization_constraint_get_require_local)
      (some polkit_authorization_constraint_get_require_active) = false ∧
    polkit_authorization_constraint_equal
      (some polkit_authorization_constraint_get_require_local_active)
      (some polkit_authorization_constraint_get_require_local_active) = true := by
  refine ⟨?_, ?_, ?_, ?_, by decide, by decide, by decide⟩
  · intro c hc
    apply one_class_of_canonical_flags
    simp only [canonical_constraints, List.mem_cons, List.mem_singleton, List.not_mem_nil,
      or_false] at hc
    rcases hc with e | e | e | e <;> subst e <;> decide
  · intro s r h
    apply one_class_of_canonical_flags
    rcases from_string_cases s r h with ⟨_, e⟩ | ⟨_, e⟩ | ⟨_, e⟩ | ⟨_, e⟩ <;> subst e <;> decide
  · intro caller
    apply one_class_of_canonical_flags
    rcases caller with _ | ⟨_ | _ | ⟨_ | _ | _, _ | _ | _⟩⟩ <;> decide
  · intro entry
    apply one_class_of_canonical_flags
    exact Or.inl rfl

/-- Witness for `produced_constraints_canonical`: the constraint parsed from `local`. -/
theorem produced_constraints_canonical_witness :
    polkit_authorization_constraint_from_string (some "local") = some _local_constraint ∧
    in_one_canonical_class _local_constraint :=
  ⟨by decide, produced_constraints_canonical.2.1 "local" _local_constraint (by decide)⟩

/-! ## The count returned by `to_string` -/

theorem snprintf_count (out_buf : List Char) (buf_size : Nat) (text : String) :
    (snprintf out_buf buf_size text).2 = text.length := by
  unfold snprintf
  split_ifs <;> rfl

theorem flag_values :
    POLKIT_AUTHORIZATION_CONSTRAINT_REQUIRE_LOCAL = 1 ∧
    POLKIT_AUTHORIZATION_CONSTRAINT_REQUIRE_ACTIVE = 2 ∧
    POLKIT_AUTHORIZATION_CONSTRAINT_REQUIRE_LOCAL |||
      POLKIT_AUTHORIZATION_CONSTRAINT_REQUIRE_ACTIVE = 3 ∧
    "none".length = 4 ∧ "local".length = 5 ∧ "active".length = 6 ∧
    "local+active".length = 12 := by
  decide

/-- The count returned by `to_string`, by flag value. -/
theorem to_string_count (c : PolKitAuthorizationConstraint) (out_buf : List Char)
    (buf_size : Nat) :
    (c.flags = 0 →
      (polkit_authorization_constraint_to_string (some c) out_buf buf_size).2 = 4) ∧
    (c.flags = 1 →
      (polkit_authorization_constraint_to_string (some c) out_buf buf_size).2 = 5) ∧
    (c.flags = 2 →
      (polkit_authorization_constraint_to_string (some c) out_buf buf_size).2 = 6) ∧
    (c.flags = 3 →
      (polkit_authorization_constraint_to_string (some c) out_buf buf_size).2 = 12) ∧
    (c.flags ≠ 0 → c.flags ≠ 1 → c.flags ≠ 2 → c.flags ≠ 3 →
      (polkit_authorization_constraint_to_string (some c) out_buf buf_size).2 = buf_size) := by
  refine ⟨fun h => ?_, fun h => ?_, fun h => ?_, fun h => ?_, fun h0 h1 h2 h3 => ?_⟩
  · rw [(to_string_of_flags c out_buf buf_size).1 h, snprintf_count]
    rfl
  · rw [(to_string_of_flags c out_buf buf_size).2.1 h, snprintf_count]
    rfl
  · rw [(to_string_of_flags c out_buf buf_size).2.2.1 h, snprintf_count]
    rfl
  · rw [(to_string_of_flags c out_buf buf_size).2.2.2 h, snprintf_count]
    rfl
  · have hv := flag_values
    have v12 : (1 ||| 2 : Nat) = 3 := rfl
    simp only [polkit_authorization_constraint_to_string, hv.1, hv.2.1, v12, h0, h1, h2,
      h3, if_false]

/-- C13: for every constraint and every `buf_size`, the count `r` returned by `to_string`
satisfies `r >= buf_size` exactly when the output was truncated (token and NUL do not fit) or
the flags are not canonical; `r < buf_size` exactly when the flags are canonical and the token
fits, and then the complete token, followed by a NUL, is what the buffer holds. -/
theorem to_string_count_signal (c : PolKitAuthorizationConstraint) (out_buf : List Char)
    (buf_size : Nat) :
    (buf_size ≤ (polkit_authorization_constraint_to_string (some c) out_buf buf_size).2 ↔
      (output_truncated c.flags buf_size ∨ ¬ canonical_flags c.flags)) ∧
    ((polkit_authorization_constraint_to_string (some c) out_buf buf_size).2 < buf_size ↔
      token_fits c.flags buf_size) ∧
    ((polkit_authorization_constraint_to_string (some c) out_buf buf_size).2 < buf_size →
      ∃ tok ∈ ["none", "local", "active", "local+active"],
        polkit_authorization_constraint_to_string (some c) out_buf buf_size =
          (tok.data ++ Char.ofNat 0 :: out_buf.drop (tok.length + 1), tok.length) ∧
        c_str (polkit_authorization_constraint_to_string (some c) out_buf buf_size).1 =
          tok.data) := by
  obtain ⟨k0, k1, k2, k3, kn⟩ := to_string_count c out_buf buf_size
  obtain ⟨v1, v2, _, l0, l1, l2, l3⟩ := flag_values
  have v12 : (1 ||| 2 : Nat) = 3 := rfl
  simp only [output_truncated, token_fits, canonical_flags, v1, v2, v12, l0, l1, l2, l3]
  by_cases h0 : c.flags = 0
  · have hr := k0 h0
    refine ⟨by rw [hr]; omega, by rw [hr]; omega, fun hlt => ?_⟩
    rw [hr] at hlt
    refine ⟨"none", by simp, ?_⟩
    rw [(to_string_of_flags c out_buf buf_size).1 h0]
    exact ⟨snprintf_fits out_buf buf_size "none" hlt,
      c_str_snprintf_fits out_buf buf_size "none" hlt token_no_nul.1⟩
  · by_cases h1 : c.flags = 1
    · have hr := k1 h1
      refine ⟨by rw [hr]; omega, by rw [hr]; omega, fun hlt => ?_⟩
      rw [hr] at hlt
      refine ⟨"local", by simp, ?_⟩
      rw [(to_string_of_flags c out_buf buf_size).2.1 h1]
      exact ⟨snprintf_fits out_buf buf_size "local" hlt,
        c_str_snprintf_fits out_buf buf_size "local" hlt token_no_nul.2.1⟩
    · by_cases h2 : c.flags = 2
      · have hr := k2 h2
        refine ⟨by rw [hr]; omega, by rw [hr]; omega, fun hlt => ?_⟩
        rw [hr] at hlt
        refine ⟨"active", by simp, ?_⟩
        rw [(to_string_of_flags c out_buf buf_size).2.2.1 h2]
        exact ⟨snprintf_fits out_buf buf_size "active" hlt,
          c_str_snprintf_fits out_buf buf_size "active" hlt token_no_nul.2.2.1⟩
      · by_cases h3 : c.flags = 3
        · have hr := k3 h3
          refine ⟨by rw [hr]; omega, by rw [hr]; omega, fun hlt => ?_⟩
          rw [hr] at hlt
          refine ⟨"local+active", by simp, ?_⟩
          rw [(to_string_of_flags c out_buf buf_size).2.2.2 h3]
          exact ⟨snprintf_fits out_buf buf_size "local+active" hlt,
            c_str_snprintf_fits out_buf buf_size "local+active" hlt token_no_nul.2.2.2⟩
        · have hr := kn h0 h1 h2 h3
          refine ⟨by rw [hr]; omega, by rw [hr]; omega, fun hlt => ?_⟩
          rw [hr] at hlt
          omega

/-- Witness for `to_string_count_signal`: the active singleton with a 7-byte buffer returns
6, below the buffer size, and the whole token is stored. -/
theorem to_string_count_signal_witness :
    (polkit_authorization_constraint_to_string (some _active_constraint)
        (List.replicate 7 (Char.ofNat 120)) 7).2 < 7 ∧
    ∃ tok ∈ ["none", "local", "active", "local+active"],
      polkit_authorization_constraint_to_string (some _active_constraint)
          (List.replicate 7 (Char.ofNat 120)) 7 =
        (tok.data ++ Char.ofNat 0 :: (List.replicate 7 (Char.ofNat 120)).drop (tok.length + 1),
          tok.length) ∧
      c_str (polkit_authorization_constraint_to_string (some _active_constraint)
          (List.replicate 7 (Char.ofNat 120)) 7).1 = tok.data :=
  ⟨by decide,
   (to_string_count_signal _active_constraint (List.replicate 7 (Char.ofNat 120)) 7).2.2
     (by decide)⟩

/-- C14 (evaluation of the code): on a buffer too small for the token, `to_string` returns
the token length, as `snprintf` does, not `buf_size`: the null constraint with `buf_size` 2
stores `n` and a NUL and returns 4; local+active with `buf_size` 5 returns 12. The two agree
only when `buf_size` is the token length itself. -/
theorem to_string_truncated_count :
    polkit_authorization_constraint_to_string
        (some polkit_authorization_constraint_get_null)
        [Char.ofNat 120, Char.ofNat 120] 2 = ([Char.ofNat 110, Char.ofNat 0], 4) ∧
    (polkit_authorization_constraint_to_string
        (some polkit_authorization_constraint_get_null)
        [Char.ofNat 120, Char.ofNat 120] 2).2 ≠ 2 ∧
    (polkit_authorization_constraint_to_string
        (some polkit_authorization_constraint_get_require_local_active)
        (List.replicate 5 (Char.ofNat 120)) 5).2 = 12 ∧
    (polkit_authorization_constraint_to_string
        (some polkit_authorization_constraint_get_require_local_active)
        (List.replicate 5 (Char.ofNat 120)) 0).2 = 12 ∧
    (polkit_authorization_constraint_to_string
        (some polkit_authorization_constraint_get_null)
        (List.replicate 4 (Char.ofNat 120)) 4).2 = 4 := by
  decide

/-! ## Tightness of the derived constraint -/

/-- The session check, spelled out on the two query answers. -/
theorem check_session_true_iff (c : PolKitAuthorizationConstraint) (s : PolKitSession) :
    polkit_authorization_constraint_check_session (some c) (some s) = true ↔
      ((c.flags &&& POLKIT_AUTHORIZATION_CONSTRAINT_REQUIRE_LOCAL = 0 ∨
          s.ck_is_local = some true) ∧
       (c.flags &&& POLKIT_AUTHORIZATION_CONSTRAINT_REQUIRE_ACTIVE = 0 ∨
          s.ck_is_active = some true)) := by
  obtain ⟨l, a⟩ := s
  simp only [polkit_authorization_constraint_check_session, polkit_session_get_ck_is_local,
    polkit_session_get_ck_is_active]
  rcases l with _ | _ | _ <;> rcases a with _ | _ | _ <;>
    by_cases h1 : c.flags &&& POLKIT_AUTHORIZATION_CONSTRAINT_REQUIRE_LOCAL = 0 <;>
    by_cases h2 : c.flags &&& POLKIT_AUTHORIZATION_CONSTRAINT_REQUIRE_ACTIVE = 0 <;>
    simp [h1, h2]

/-- The caller check looks at the flags only. -/
theorem check_caller_flags_only (r : Int) (flags : Nat) (caller : Option PolKitCaller) :
    polkit_authorization_constraint_check_caller (some ⟨r, flags⟩) caller =
      polkit_authorization_constraint_check_caller (some ⟨0, flags⟩) caller := by
  rfl

/-- Where the derived constraint is tight: for a caller whose session query fails, or whose
session reports both properties as known, a constraint with canonical flags is satisfied
exactly when its flags are among the flags of the derived constraint. -/
theorem tightness_known_context (c : PolKitAuthorizationConstraint) (caller : PolKitCaller)
    (hc : canonical_flags c.flags)
    (hk : caller.ck_session = none ∨
      ∃ l a : Bool, caller.ck_session = some (some ⟨some l, some a⟩)) :
    polkit_authorization_constraint_check_caller (some c) (some caller) = true ↔
      flags_subset c.flags
        (polkit_authorization_constraint_get_from_caller (some caller)).flags := by
  obtain ⟨r, f⟩ := c
  obtain ⟨q⟩ := caller
  rw [check_caller_flags_only]
  have hf : f = 0 ∨ f = 1 ∨ f = 2 ∨ f = 3 := hc
  change polkit_authorization_constraint_check_caller (some ⟨0, f⟩) (some ⟨q⟩) = true ↔
    flags_subset f (polkit_authorization_constraint_get_from_caller (some ⟨q⟩)).flags
  rcases hk with hq | ⟨l, a, hq⟩
  · simp only at hq
    subst hq
    rcases hf with e | e | e | e <;> subst e <;> decide
  · simp only at hq
    subst hq
    rcases hf with e | e | e | e <;> subst e <;> cases l <;> cases a <;> decide

/-- C15 (evaluation of the code): for the caller whose session query succeeds with a `NULL`
session handle, the derived constraint is local+active, so the flags of require-local are
among the derived flags, yet the caller check of require-local is `FALSE`: the derived
constraint is not satisfied by that caller. -/
theorem tightness_fails_null_session_handle :
    polkit_caller_get_ck_session (some ⟨some none⟩) = some none ∧
    canonical_flags polkit_authorization_constraint_get_require_local.flags ∧
    flags_subset polkit_authorization_constraint_get_require_local.flags
      (polkit_authorization_constraint_get_from_caller (some ⟨some none⟩)).flags ∧
    polkit_authorization_constraint_check_caller
      (some polkit_authorization_constraint_get_require_local) (some ⟨some none⟩) = false ∧
    polkit_authorization_constraint_check_caller
      (some (polkit_authorization_constraint_get_from_caller (some ⟨some none⟩)))
      (some ⟨some none⟩) = false := by
  decide

/-! ## Reference counting on the singletons -/

theorem run_calls_sentinel (c : PolKitAuthorizationConstraint) (h : c.refcount = -1)
    (calls : List RefCall) : run_calls calls (some c) = some c := by
  induction calls with
  | nil => rfl
  | cons call rest ih =>
    cases call
    · simpa [run_calls, RefCall.apply, polkit_authorization_constraint_ref, h] using ih
    · simpa [run_calls, RefCall.apply, polkit_authorization_constraint_unref, h] using ih

/-- C16: for each of the four canonical constraints (reference count -1), `ref` gives back
the object unchanged, `unref` returns with the object still there and unchanged, and after
any sequence of `ref` / `unref` calls the object is the same (reference count -1, same
flags); on any constraint, `ref` keeps the flags. -/
theorem ref_unref_singleton (c : PolKitAuthorizationConstraint)
    (h : c ∈ canonical_constraints) (calls : List RefCall)
    (a : PolKitAuthorizationConstraint) :
    c.refcount = -1 ∧
    polkit_authorization_constraint_ref (some c) = some c ∧
    polkit_authorization_constraint_unref (some c) = some c ∧
    run_calls calls (some c) = some c ∧
    (∃ a1, polkit_authorization_constraint_ref (some a) = some a1 ∧ a1.flags = a.flags) := by
  have hr : c.refcount = -1 := by
    simp only [canonical_constraints, List.mem_cons, List.mem_singleton, List.not_mem_nil,
      or_false] at h
    rcases h with e | e | e | e <;> subst e <;> rfl
  refine ⟨hr, ?_, ?_, run_calls_sentinel c hr calls, ?_⟩
  · simp [polkit_authorization_constraint_ref, hr]
  · simp [polkit_authorization_constraint_unref, hr]
  · unfold polkit_authorization_constraint_ref
    simp only
    split_ifs
    · exact ⟨a, rfl, rfl⟩
    · exact ⟨_, rfl, rfl⟩

/-- Witness for `ref_unref_singleton`: the local singleton under ref, unref, unref, and a heap
object with reference count 1 and flags REQUIRE_ACTIVE. -/
theorem ref_unref_singleton_witness :
    _local_constraint ∈ canonical_constraints ∧
    run_calls [RefCall.ref, RefCall.unref, RefCall.unref] (some _local_constraint) =
      some _local_constraint ∧
    (∃ a1, polkit_authorization_constraint_ref (some ⟨1, 2⟩) = some a1 ∧
      a1.flags = (⟨1, 2⟩ : PolKitAuthorizationConstraint).flags) :=
  ⟨by decide,
   (ref_unref_singleton _local_constraint (by decide)
     [RefCall.ref, RefCall.unref, RefCall.unref] ⟨1, 2⟩).2.2.2.1,
   (ref_unref_singleton _local_constraint (by decide)
     [RefCall.ref, RefCall.unref, RefCall.unref] ⟨1, 2⟩).2.2.2.2⟩

/-! ## Monotonicity of the checks -/

theorem land_eq_zero_of_subset (a b m : Nat) (h : a &&& b = a) (hb : b &&& m = 0) :
    a &&& m = 0 := by
  rw [← h, Nat.land_assoc, hb, Nat.and_zero]

/-- C17: when the flags of `a` are among the flags of `b`, every session that satisfies `b`
satisfies `a`, and every caller (in a session or not) that satisfies `b` satisfies `a`;
and the session check of local+active is the conjunction of the session checks of local and
of active. -/
theorem check_monotone (a b : PolKitAuthorizationConstraint)
    (h : flags_subset a.flags b.flags) :
    (∀ s : PolKitSession,
      polkit_authorization_constraint_check_session (some b) (some s) = true →
      polkit_authorization_constraint_check_session (some a) (some s) = true) ∧
    (∀ caller : PolKitCaller,
      polkit_authorization_constraint_check_caller (some b) (some caller) = true →
      polkit_authorization_constraint_check_caller (some a) (some caller) = true) ∧
    (∀ s : PolKitSession,
      polkit_authorization_constraint_check_session
          (some polkit_authorization_constraint_get_require_local_active) (some s) =
        (polkit_authorization_constraint_check_session
            (some polkit_authorization_constraint_get_require_local) (some s) &&
         polkit_authorization_constraint_check_session
            (some polkit_authorization_constraint_get_require_active) (some s))) := by
  have hs : ∀ s : PolKitSession,
      polkit_authorization_constraint_check_session (some b) (some s) = true →
      polkit_authorization_constraint_check_session (some a) (some s) = true := by
    intro s hb
    rw [check_session_true_iff] at hb ⊢
    obtain ⟨hl, ha⟩ := hb
    exact ⟨hl.imp (land_eq_zero_of_subset _ _ _ h) id,
      ha.imp (land_eq_zero_of_subset _ _ _ h) id⟩
  refine ⟨hs, ?_, ?_⟩
  · rintro ⟨q⟩ hb
    rcases q with _ | _ | s
    · have hb0 : b.flags = 0 := by
        by_contra hne
        simp [polkit_authorization_constraint_check_caller, polkit_caller_get_ck_session,
          hne] at hb
      have ha0 : a.flags = 0 := by
        have := h
        unfold flags_subset at this
        rw [hb0, Nat.and_zero] at this
        exact this.symm
      simp [polkit_authorization_constraint_check_caller, polkit_caller_get_ck_session, ha0]
    · have hb0 : b.flags = 0 := by
        by_contra hne
        simp [polkit_authorization_constraint_check_caller, polkit_caller_get_ck_session,
          hne] at hb
      have ha0 : a.flags = 0 := by
        have := h
        unfold flags_subset at this
        rw [hb0, Nat.and_zero] at this
        exact this.symm
      simp [polkit_authorization_constraint_check_caller, polkit_caller_get_ck_session, ha0]
    · exact hs s hb
  · rintro ⟨l, act⟩
    rcases l with _ | _ | _ <;> rcases act with _ | _ | _ <;> decide

/-- Witness for `check_monotone`: require-local against local+active, on a session known
local and known active. -/
theorem check_monotone_witness :
    flags_subset _local_constraint.flags _local_active_constraint.flags ∧
    polkit_authorization_constraint_check_session (some _local_active_constraint)
      (some ⟨some true, some true⟩) = true ∧
    polkit_authorization_constraint_check_session (some _local_constraint)
      (some ⟨some true, some true⟩) = true :=
  ⟨by decide, by decide,
   (check_monotone _local_constraint _local_active_constraint (by decide)).1
     ⟨some true, some true⟩ (by decide)⟩

end Polkit
